import Mathlib

/-!
Verification development for the remuXcode media transcoding service.

The definitions below are a shallow embedding of the Python sources:

* `remuxcode.py` — job queue, worker processing (`JobQueue._process_job`,
  `JobQueue.cancel_job`, `JobQueue.load_pending_jobs`, `process_file`);
* `backend/utils/job_store.py` — SQLite job store (`save_job`, `get_job`,
  `get_pending_jobs`, `cleanup_old_jobs`);
* `backend/workers/audio.py` — `AudioConverter._determine_target_format`;
* `backend/workers/video.py` — `VideoConverter.should_convert`;
* `backend/workers/cleanup.py` — `StreamCleanup._get_languages_to_keep`,
  `_should_keep_audio`, `_should_keep_subtitle`.

Timestamps are modelled as natural numbers (the Python code formats them as
ISO strings whose ordering agrees with the underlying times).  I/O-dependent
inputs (ffprobe results, subprocess outcomes, cancellation timing) are passed
in explicitly as values.
-/

namespace Remuxcode

/-- Job status values, from the `JobStatus` enum in `remuxcode.py`. -/
inductive JobStatus where
  | pending
  | running
  | completed
  | failed
  | cancelled
  deriving DecidableEq, Repr

/-- Kinds of conversion jobs, from the `JobType` enum in `remuxcode.py`. -/
inductive JobType where
  | audio
  | video
  | cleanup
  | full
  deriving DecidableEq, Repr

/-- Outcome summary of one subsystem, as recorded by `process_file` into the
per-subsystem result dictionaries (only the `success` flag is relevant to the
claims; the other keys are diagnostic strings and counters). -/
structure SubResult where
  success : Bool
  deriving DecidableEq, Repr

/-- Per-subsystem results of `process_file` (`remuxcode.py`, lines 443-511):
the `audio` / `video` / `cleanup` entries of the returned dictionary, each
`none` when the subsystem was not requested or its `should_*` predicate was
false. -/
structure ProcessResults where
  audio : Option SubResult
  video : Option SubResult
  cleanup : Option SubResult
  deriving DecidableEq, Repr

/-- Environment of one `process_file` invocation: whether the file exists, and
for each subsystem the value of its `should_*` predicate together with the
`success` flag of the result its converter returns.  These come from the
filesystem, ffprobe and subprocesses, so they are inputs of the model. -/
structure ProcessEnv where
  fileExists : Bool
  audioShould : Bool
  audioSuccess : Bool
  videoShould : Bool
  videoSuccess : Bool
  cleanupShould : Bool
  cleanupSuccess : Bool
  deriving DecidableEq, Repr

/-- Error message raised by `process_file` when the file is missing. -/
def fileNotFoundMsg (filePath : String) : String :=
  "File not found: " ++ filePath

/-- Shallow embedding of `process_file` (`remuxcode.py`, lines 443-511).
Raises (returns `Except.error`) only when the file does not exist; each
subsystem runs when requested by the job type and its `should_*` predicate
holds, and its `success` flag is recorded independently in the results. -/
def processFile (jobType : JobType) (filePath : String) (env : ProcessEnv) :
    Except String ProcessResults :=
  if env.fileExists = false then
    Except.error (fileNotFoundMsg filePath)
  else
    let doAudio := jobType = JobType.audio ∨ jobType = JobType.full
    let doVideo := jobType = JobType.video ∨ jobType = JobType.full
    let doCleanup := jobType = JobType.cleanup ∨ jobType = JobType.full
    Except.ok
      { audio := if doAudio ∧ env.audioShould then some ⟨env.audioSuccess⟩ else none
        video := if doVideo ∧ env.videoShould then some ⟨env.videoSuccess⟩ else none
        cleanup := if doCleanup ∧ env.cleanupShould then some ⟨env.cleanupSuccess⟩ else none }

/-- In-memory job record, from the `ConversionJob` dataclass in
`remuxcode.py`.  Progress is an integer here because the code only ever
assigns the constant `0.0`. -/
structure ConversionJob where
  id : String
  jobType : JobType
  filePath : String
  status : JobStatus
  createdAt : Nat
  startedAt : Option Nat := none
  completedAt : Option Nat := none
  progress : Int := 0
  result : Option ProcessResults := none
  error : Option String := none
  source : String := "webhook"
  deriving DecidableEq, Repr

/-- Fixed error message written by `JobQueue.cancel_job`. -/
def cancelledMsg : String := "Cancelled by user"

/-- Mutation applied by `JobQueue.cancel_job` once the status guard passed
(`remuxcode.py`, lines 177-179). -/
def cancelUpdate (job : ConversionJob) (t : Nat) : ConversionJob :=
  { job with status := JobStatus.cancelled, completedAt := some t,
             error := some cancelledMsg }

/-- Shallow embedding of `JobQueue.cancel_job` (`remuxcode.py`, lines
159-186).  Returns `none` when the job is not pending or running (the Python
method returns `False`), otherwise the cancelled job. -/
def cancelJob (job : ConversionJob) (t : Nat) : Option ConversionJob :=
  if job.status = JobStatus.pending ∨ job.status = JobStatus.running then
    some (cancelUpdate job t)
  else
    none

/-- Disjunction computed at `remuxcode.py` lines 284-288: whether any of the
three subsystems reported success (this gates the rename trigger). -/
def anySuccess (res : ProcessResults) : Bool :=
  (match res.audio with | some r => r.success | none => false) ||
  (match res.video with | some r => r.success | none => false) ||
  (match res.cleanup with | some r => r.success | none => false)

/-- Shallow embedding of `JobQueue._process_job` (`remuxcode.py`, lines
253-305) for one dequeued job.  `cancelledDuring` tells whether
`cancel_job` ran (at time `tc`) while `process_file` was executing; `t1` and
`t2` are the wall-clock times taken at start and in the `finally` block.  The
returned boolean is whether `trigger_rename` was invoked for this job.

Code path notes: an already-cancelled job is skipped unchanged; on an
exception from `process_file` the handler overwrites status (and error) with
`failed` even if a concurrent cancel had run; on normal return the worker
checks the status again and, if it was cancelled meanwhile, neither stores a
result, nor marks completed, nor triggers the rename protocol. -/
def processJob (job : ConversionJob) (env : ProcessEnv)
    (cancelledDuring : Bool) (tc t1 t2 : Nat) : ConversionJob × Bool :=
  if job.status = JobStatus.cancelled then
    (job, false)
  else
    let j1 := { job with status := JobStatus.running, startedAt := some t1 }
    match processFile job.jobType job.filePath env with
    | Except.error e =>
        ({ j1 with status := JobStatus.failed, error := some e,
                   completedAt := some t2 }, false)
    | Except.ok res =>
        let j2 := if cancelledDuring then cancelUpdate j1 tc else j1
        if j2.status = JobStatus.cancelled then
          ({ j2 with completedAt := some t2 }, false)
        else
          ({ j2 with result := some res, status := JobStatus.completed,
                     completedAt := some t2 }, anySuccess res)

/-- Audio configuration fields consumed by
`AudioConverter._determine_target_format` (defaults from
`backend/utils/config.py`, `AudioConfig`). -/
structure AudioConfig where
  prefer_ac3 : Bool := true
  ac3_bitrate : Nat := 640
  eac3_bitrate : Nat := 1536
  aac_surround_bitrate : Nat := 512
  aac_stereo_bitrate : Nat := 320
  deriving DecidableEq, Repr

/-- Default audio configuration (`backend/utils/config.py`, `AudioConfig`). -/
def defaultAudioConfig : AudioConfig := {}

/-- Codec identifier strings used by the audio pipeline. -/
def codecAac : String := "aac"

/-- AC3 codec identifier. -/
def codecAc3 : String := "ac3"

/-- E-AC3 codec identifier. -/
def codecEac3 : String := "eac3"

/-- Channel layout string for the greater-than-8-channel downmix. -/
def layout71 : String := "7.1"

/-- Shallow embedding of `AudioConverter._determine_target_format`
(`backend/workers/audio.py`, lines 318-365).  Input: channel count and the
source bitrate in kbps (`0` meaning unknown).  Output: target codec, target
bitrate in kbps, and an optional explicit channel layout. -/
def determineTargetFormat (cfg : AudioConfig) (channels sourceBitrate : Nat) :
    String × Nat × Option String :=
  let (targetCodec, bitrateCap, targetLayout) :=
    if channels > 8 then
      (codecAac, cfg.aac_surround_bitrate, some layout71)
    else if channels > 6 then
      (codecAac, cfg.aac_surround_bitrate, none)
    else if channels > 2 then
      if cfg.prefer_ac3 then
        (codecAc3, cfg.ac3_bitrate, none)
      else
        (codecEac3, cfg.eac3_bitrate, none)
    else
      (codecAac, cfg.aac_stereo_bitrate, none)
  let targetBitrate :=
    min (if sourceBitrate > 0 then sourceBitrate else bitrateCap) bitrateCap
  let targetBitrate :=
    if targetCodec = codecAc3 ∧ channels > 2 then
      max targetBitrate 448
    else if targetCodec = codecEac3 ∧ channels > 6 then
      max targetBitrate 256
    else if targetCodec = codecAac then
      max targetBitrate 128
    else
      targetBitrate
  (targetCodec, targetBitrate, targetLayout)

/-- String value stored in the job store status column, from
`JobStatus(...).value` in `remuxcode.py`. -/
def statusString : JobStatus → String
  | JobStatus.pending => "pending"
  | JobStatus.running => "running"
  | JobStatus.completed => "completed"
  | JobStatus.failed => "failed"
  | JobStatus.cancelled => "cancelled"

/-- Row of the `jobs` table (`backend/utils/job_store.py`, `_init_db`).
Timestamp columns are TEXT in SQLite; they are modelled as naturals since the
ISO strings the code writes order the same way as the times they encode. -/
structure StoreRow where
  id : String
  file_path : String
  status : String
  progress : Int
  error : Option String
  created_at : Nat
  updated_at : Nat
  started_at : Option Nat
  completed_at : Option Nat
  video_converted : Bool
  audio_converted : Bool
  streams_cleaned : Bool
  deriving DecidableEq, Repr

/-- Dictionary argument of `JobStore.save_job`: optional fields model keys the
caller may omit (the `dict.get` defaults in `save_job` are applied inside
`updateRow` and `insertRow`).  The `status` key is present at every call site,
so it is not optional here (the insert-time default `queued` never fires). -/
structure JobData where
  id : String
  file_path : String
  status : String
  progress : Option Int := none
  error : Option String := none
  created_at : Option Nat := none
  started_at : Option Nat := none
  completed_at : Option Nat := none
  video_converted : Option Bool := none
  audio_converted : Option Bool := none
  streams_cleaned : Option Bool := none
  deriving DecidableEq, Repr

/-- UPDATE branch of `JobStore.save_job` (`backend/utils/job_store.py`, lines
101-126): every column except `id`, `file_path` and `created_at` is
overwritten; `started_at` uses `COALESCE(?, started_at)` so it is only ever
set, never cleared, once populated. -/
def updateRow (r : StoreRow) (d : JobData) (now : Nat) : StoreRow :=
  { r with
    status := d.status
    progress := d.progress.getD 0
    error := d.error
    updated_at := now
    started_at := match d.started_at with
                  | some t => some t
                  | none => r.started_at
    completed_at := d.completed_at
    video_converted := d.video_converted.getD false
    audio_converted := d.audio_converted.getD false
    streams_cleaned := d.streams_cleaned.getD false }

/-- INSERT branch of `JobStore.save_job` (`backend/utils/job_store.py`, lines
127-148). -/
def insertRow (d : JobData) (now : Nat) : StoreRow :=
  { id := d.id
    file_path := d.file_path
    status := d.status
    progress := d.progress.getD 0
    error := d.error
    created_at := d.created_at.getD now
    updated_at := now
    started_at := d.started_at
    completed_at := d.completed_at
    video_converted := d.video_converted.getD false
    audio_converted := d.audio_converted.getD false
    streams_cleaned := d.streams_cleaned.getD false }

/-- Shallow embedding of `JobStore.save_job` (`backend/utils/job_store.py`,
lines 84-148): update the row with matching id if one exists, otherwise append
a new row.  The table is modelled as a list of rows. -/
def saveJob (store : List StoreRow) (d : JobData) (now : Nat) : List StoreRow :=
  if store.any (fun r => r.id == d.id) then
    store.map (fun r => if r.id == d.id then updateRow r d now else r)
  else
    store ++ [insertRow d now]

/-- Shallow embedding of `JobStore.get_job` (`backend/utils/job_store.py`,
lines 150-169): first row with the given id, or `none`. -/
def getJob (store : List StoreRow) (jobId : String) : Option StoreRow :=
  store.find? (fun r => r.id == jobId)

/-- Shallow embedding of `JobStore.get_pending_jobs` (`backend/utils/job_store.py`,
lines 190-204): the rows whose status is pending or running.  The SQL
`ORDER BY created_at ASC` clause only permutes the result; the claims settled
here are membership statements, so the table order is kept. -/
def getPendingJobs (store : List StoreRow) : List StoreRow :=
  store.filter (fun r => r.status == "pending" || r.status == "running")

/-- Deletion predicate of `JobStore.cleanup_old_jobs` (`backend/utils/job_store.py`,
lines 224-253): `status IN statuses AND completed_at < cutoff`.  A NULL
`completed_at` compares as unknown in SQL, so such rows are never deleted. -/
def cleanupMatches (r : StoreRow) (statuses : List String) (cutoff : Nat) : Bool :=
  statuses.contains r.status &&
    (match r.completed_at with
     | some t => decide (t < cutoff)
     | none => false)

/-- Shallow embedding of `JobStore.cleanup_old_jobs`: the store after the
DELETE statement ran (rows matching `cleanupMatches` removed). -/
def cleanupOldJobs (store : List StoreRow) (statuses : List String)
    (cutoff : Nat) : List StoreRow :=
  store.filter (fun r => !(cleanupMatches r statuses cutoff))

/-- Dictionary built by `JobQueue._save_job_to_store` (`remuxcode.py`, lines
188-210) from an in-memory job.  The three outcome flags are only added when
`job.result` is populated, each derived independently from the corresponding
per-subsystem `success` entry. -/
def jobToStoreData (job : ConversionJob) : JobData :=
  { id := job.id
    file_path := job.filePath
    status := statusString job.status
    progress := some job.progress
    error := job.error
    created_at := some job.createdAt
    started_at := job.startedAt
    completed_at := job.completedAt
    video_converted := job.result.map (fun r =>
      match r.video with | some s => s.success | none => false)
    audio_converted := job.result.map (fun r =>
      match r.audio with | some s => s.success | none => false)
    streams_cleaned := job.result.map (fun r =>
      match r.cleanup with | some s => s.success | none => false) }

/-- Job rebuilt by `JobQueue.load_pending_jobs` (`remuxcode.py`, lines
212-240) from a resumable store row: status reset to pending, progress reset
to `0`, `created_at` set to the current time, and the job type hard-coded to
`JobType.FULL` (the store does not persist the kind). -/
def requeueJob (r : StoreRow) (now : Nat) : ConversionJob :=
  { id := r.id
    jobType := JobType.full
    filePath := r.file_path
    status := JobStatus.pending
    createdAt := now
    progress := 0 }

/-- Shallow embedding of `JobQueue.load_pending_jobs`: every resumable row of
the store is re-enqueued via `requeueJob`. -/
def loadPendingJobs (store : List StoreRow) (now : Nat) : List ConversionJob :=
  (getPendingJobs store).map (fun r => requeueJob r now)

/-- Labels for the operations that mutate a job status, one per mutation site
in `remuxcode.py`: `cancel_job` (line 177), the worker marking a job running
(line 264), the worker finishing normally (line 280) or through the exception
handler (line 298), and the startup `load_pending_jobs` reload (line 227). -/
inductive QueueOp where
  | cancel
  | workerStart
  | finishOk
  | finishErr
  | resumeReload
  deriving DecidableEq, Repr

/-- Status transition function of the job queue, one case per mutation site
with the guard the code enforces there.  `cancel` requires pending or running
(line 174); `workerStart` fires on the single dequeue of a pending job (a
cancelled job is skipped at line 260, and the queue hands each id to exactly
one worker, so no other status is observable at pickup); `finishOk` keeps a
concurrently-cancelled job cancelled (line 275); `finishErr` overwrites with
failed from the exception handler, which a concurrent cancel does not stop;
`resumeReload` resets resumable (pending or running) rows to pending. -/
def statusStep (s : JobStatus) : QueueOp → JobStatus
  | QueueOp.cancel =>
      if s = JobStatus.pending ∨ s = JobStatus.running then JobStatus.cancelled else s
  | QueueOp.workerStart =>
      if s = JobStatus.pending then JobStatus.running else s
  | QueueOp.finishOk =>
      if s = JobStatus.running then JobStatus.completed else s
  | QueueOp.finishErr =>
      if s = JobStatus.running ∨ s = JobStatus.cancelled then JobStatus.failed else s
  | QueueOp.resumeReload =>
      if s = JobStatus.pending ∨ s = JobStatus.running then JobStatus.pending else s

/-- Terminal statuses: completed, failed, cancelled. -/
def isTerminal (s : JobStatus) : Bool :=
  s = JobStatus.completed || s = JobStatus.failed || s = JobStatus.cancelled

/-- Position of a status along the pending, running, terminal progression. -/
def statusRank (s : JobStatus) : Nat :=
  match s with
  | JobStatus.pending => 0
  | JobStatus.running => 1
  | _ => 2

/-- Lower-casing of a string, mirroring the Python `str.lower()` calls in the
pipelines (applied to ASCII codec names, language codes and track titles).
Defined through the character list so that it evaluates inside the kernel. -/
def strLower (s : String) : String :=
  String.mk (s.data.map Char.toLower)

/-- Check whether `pat` occurs contiguously inside a character list. -/
def infixCheck (pat : List Char) : List Char → Bool
  | [] => pat.isEmpty
  | c :: rest => pat.isPrefixOf (c :: rest) || infixCheck pat rest

/-- Substring test, mirroring the Python `in` operator on strings: the
pattern occurs contiguously inside the string. -/
def containsSub (s pat : String) : Bool :=
  infixCheck pat.data s.data

/-- Video stream fields read by the video decision pipeline
(`backend/utils/ffprobe.py`, `VideoStream`; only the fields its predicates
consult are modelled). -/
structure VideoStream where
  codec_name : String
  pix_fmt : String
  bit_depth : Nat
  deriving DecidableEq, Repr

/-- Property `VideoStream.is_hevc` (`backend/utils/ffprobe.py`, lines 34-37). -/
def isHevc (v : VideoStream) : Bool :=
  strLower v.codec_name == "hevc" || strLower v.codec_name == "h265"

/-- Property `VideoStream.is_h264` (`backend/utils/ffprobe.py`, lines 39-42). -/
def isH264 (v : VideoStream) : Bool :=
  strLower v.codec_name == "h264" || strLower v.codec_name == "avc" ||
    strLower v.codec_name == "avc1"

/-- Pattern looked for inside `pix_fmt` by `VideoStream.is_10bit`. -/
def tenPat : String := "10"

/-- Property `VideoStream.is_10bit` (`backend/utils/ffprobe.py`, lines 44-47). -/
def is10bit (v : VideoStream) : Bool :=
  decide (v.bit_depth ≥ 10) || containsSub v.pix_fmt tenPat

/-- Property `VideoStream.is_10bit_h264` (`backend/utils/ffprobe.py`, lines
49-52). -/
def is10bitH264 (v : VideoStream) : Bool :=
  isH264 v && is10bit v

/-- Audio stream fields read by the cleanup decision pipeline
(`backend/utils/ffprobe.py`, `AudioStream`; only the fields
`_should_keep_audio` consults are modelled). -/
structure AudioStream where
  language : Option String
  title : Option String
  deriving DecidableEq, Repr

/-- Subtitle stream fields read by the cleanup decision pipeline
(`backend/utils/ffprobe.py`, `SubtitleStream`). -/
structure SubtitleStream where
  language : Option String
  title : Option String
  is_forced : Bool
  is_hearing_impaired : Bool
  deriving DecidableEq, Repr

/-- Property `SubtitleStream.is_sdh` (`backend/utils/ffprobe.py`, lines
108-111): alias for the hearing-impaired flag. -/
def isSdh (s : SubtitleStream) : Bool :=
  s.is_hearing_impaired

/-- Media metadata consumed by the decision pipelines (`MediaInfo` in
`backend/utils/ffprobe.py`, restricted to the stream lists the embedded
functions read; `primary_video` is the head of `video_streams`). -/
structure MediaInfo where
  video_streams : List VideoStream := []
  audio_streams : List AudioStream := []
  subtitle_streams : List SubtitleStream := []
  deriving DecidableEq, Repr

/-- Content classification returned by the anime detector (`ContentType` in
`backend/utils/anime_detect.py`). -/
inductive ContentType where
  | anime
  | liveAction
  | unknown
  deriving DecidableEq, Repr

/-- Video configuration fields consumed by `VideoConverter.should_convert`
(defaults from `backend/utils/config.py`, `VideoConfig`). -/
structure VideoConfig where
  enabled : Bool := true
  convert_10bit_x264 : Bool := true
  convert_8bit_x264 : Bool := false
  anime_only : Bool := true
  deriving DecidableEq, Repr

/-- Shallow embedding of `VideoConverter.should_convert`
(`backend/workers/video.py`, lines 82-122).  `info` is the ffprobe result
(`none` when analysis failed) and `detected` the classification the anime
detector returns for the file (consulted only in anime-only mode, as in the
code). -/
def shouldConvertVideo (cfg : VideoConfig) (info : Option MediaInfo)
    (detected : ContentType) : Bool :=
  if cfg.enabled = false then false
  else
    match info with
    | none => false
    | some i =>
      match i.video_streams.head? with
      | none => false
      | some v =>
        if isHevc v then false
        else if cfg.anime_only ∧ ¬(detected = ContentType.anime) then false
        else if is10bitH264 v ∧ cfg.convert_10bit_x264 then true
        else if isH264 v ∧ is10bit v = false ∧ cfg.convert_8bit_x264 then true
        else false

/-- Cleanup configuration fields consumed by the stream cleanup pipeline
(defaults from `backend/utils/config.py`, `CleanupConfig`). -/
structure CleanupConfig where
  keep_languages : List String := ["eng"]
  keep_undefined : Bool := false
  keep_commentary : Bool := true
  keep_audio_description : Bool := true
  keep_sdh : Bool := true
  deriving DecidableEq, Repr

/-- Alternate ISO 639-2 code table from `StreamCleanup._get_languages_to_keep`
(`backend/workers/cleanup.py`, lines 345-351). -/
def altCode (lang : String) : Option String :=
  if lang = "fre" then some "fra"
  else if lang = "fra" then some "fre"
  else if lang = "ger" then some "deu"
  else if lang = "deu" then some "ger"
  else if lang = "chi" then some "zho"
  else if lang = "zho" then some "chi"
  else if lang = "dut" then some "nld"
  else if lang = "nld" then some "dut"
  else if lang = "gre" then some "ell"
  else if lang = "ell" then some "gre"
  else none

/-- Shallow embedding of `StreamCleanup._get_languages_to_keep`
(`backend/workers/cleanup.py`, lines 336-360).  The Python set is modelled as
a list consulted only through membership.  The original language is added
(with its alternate spelling, if any) when it is nonempty and not `und`; when
`keep_undefined` is set, both `und` and the empty string are added. -/
def getLanguagesToKeep (cfg : CleanupConfig) (originalLang : String) :
    List String :=
  (cfg.keep_languages ++
    (if originalLang ≠ "" ∧ originalLang ≠ "und" then
      [originalLang] ++
        (match altCode originalLang with
         | some a => [a]
         | none => [])
     else [])) ++
  (if cfg.keep_undefined then ["und", ""] else [])

/-- Normalization `stream.language.lower() if stream.language else ''`
applied by both keep predicates in `backend/workers/cleanup.py`. -/
def lowerLang (l : Option String) : String :=
  match l with
  | none => ""
  | some s => strLower s

/-- Normalization `(stream.title or '').lower()` applied by
`_should_keep_audio`. -/
def lowerTitle (t : Option String) : String :=
  match t with
  | none => ""
  | some s => strLower s

/-- Title pattern marking commentary tracks. -/
def commentaryPat : String := "commentary"

/-- Title pattern marking audio description tracks. -/
def descriptionPat : String := "description"

/-- Second title pattern marking audio description tracks. -/
def descriptivePat : String := "descriptive"

/-- Shallow embedding of `StreamCleanup._should_keep_audio`
(`backend/workers/cleanup.py`, lines 362-380). -/
def shouldKeepAudio (cfg : CleanupConfig) (keep : List String)
    (s : AudioStream) : Bool :=
  if keep.contains (lowerLang s.language) then true
  else if cfg.keep_commentary && containsSub (lowerTitle s.title) commentaryPat then
    true
  else if cfg.keep_audio_description &&
      (containsSub (lowerTitle s.title) descriptionPat ||
        containsSub (lowerTitle s.title) descriptivePat) then
    true
  else false

/-- Shallow embedding of `StreamCleanup._should_keep_subtitle`
(`backend/workers/cleanup.py`, lines 382-398). -/
def shouldKeepSubtitle (cfg : CleanupConfig) (keep : List String)
    (s : SubtitleStream) : Bool :=
  if s.is_forced then true
  else if cfg.keep_sdh && isSdh s then true
  else keep.contains (lowerLang s.language)

/-! Helper lemmas shared by the claim theorems. -/

/-- Membership form of the boolean `List.contains` test on strings. -/
theorem contains_iff_mem (l : List String) (x : String) :
    l.contains x = true ↔ x ∈ l :=
  ⟨List.mem_of_elem_eq_true, List.elem_eq_true_of_mem⟩

/-- Characterization of membership in the cleanup keep-set: a language is kept
exactly when it is configured, or it is the original language or its alternate
spelling (for a usable original language), or it is `und` or the empty tag and
`keep_undefined` is set. -/
theorem mem_keep_set (cfg : CleanupConfig) (orig lang : String) :
    lang ∈ getLanguagesToKeep cfg orig ↔
      lang ∈ cfg.keep_languages ∨
        ((orig ≠ "" ∧ orig ≠ "und") ∧ (lang = orig ∨ altCode orig = some lang)) ∨
        (cfg.keep_undefined = true ∧ (lang = "und" ∨ lang = "")) := by
  unfold getLanguagesToKeep
  split_ifs with h1 h2 <;> cases halt : altCode orig <;>
    simp only [List.mem_append, List.mem_singleton, List.mem_cons,
      List.not_mem_nil, Option.some.injEq, halt, or_false, false_or,
      and_true, true_and] <;>
    constructor <;> intro h <;> tauto

/-- The alternate-code table never yields the empty string. -/
theorem altCode_ne_some_empty (o : String) : altCode o ≠ some "" := by
  unfold altCode
  split_ifs <;> simp

/-- Updating a store row preserves its id column. -/
theorem updateRow_id (r : StoreRow) (d : JobData) (now : Nat) :
    (updateRow r d now).id = r.id := rfl

/-- When some row matches the saved id, the lookup after the UPDATE branch
returns the updated version of the first matching row. -/
theorem getJob_save_found (store : List StoreRow) (d : JobData) (now : Nat)
    (h : store.any (fun r => r.id == d.id) = true) :
    ∃ r0, r0 ∈ store ∧ r0.id = d.id ∧
      (store.map (fun r => if r.id == d.id then updateRow r d now else r)).find?
          (fun r => r.id == d.id) = some (updateRow r0 d now) := by
  induction store with
  | nil => simp at h
  | cons a l ih =>
    by_cases ha : (a.id == d.id) = true
    · refine ⟨a, List.mem_cons_self a l, eq_of_beq ha, ?_⟩
      simp only [List.map_cons, if_pos ha, List.find?]
      rw [show ((updateRow a d now).id == d.id) = true from by
        rw [updateRow_id]; exact ha]
    · have h' : l.any (fun r => r.id == d.id) = true := by
        rw [List.any_cons] at h
        rcases Bool.or_eq_true _ _ |>.mp h with hh | hh
        · exact absurd hh ha
        · exact hh
      rcases ih h' with ⟨r0, hr0, hid, hfind⟩
      refine ⟨r0, List.mem_cons_of_mem a hr0, hid, ?_⟩
      simp only [List.map_cons, if_neg ha, List.find?]
      rw [show (a.id == d.id) = false from Bool.not_eq_true _ |>.mp ha]
      exact hfind

/-- Searching an appended singleton succeeds when nothing before it matches. -/
theorem find_append_single (l : List StoreRow) (p : StoreRow → Bool)
    (x : StoreRow) (h : ∀ r ∈ l, p r = false) (hx : p x = true) :
    (l ++ [x]).find? p = some x := by
  induction l with
  | nil => simp [List.find?, hx]
  | cons a t ih =>
    have ha := h a (List.mem_cons_self a t)
    simp only [List.cons_append, List.find?, ha]
    exact ih (fun r hr => h r (List.mem_cons_of_mem a hr))

/-! Claim theorems. -/

/-- Concrete full job and processing environment used for claim C1: the audio
subsystem runs and fails while video and cleanup succeed. -/
def c1Job : ConversionJob :=
  { id := "job-1", jobType := JobType.full, filePath := "/media/file.mkv",
    status := JobStatus.pending, createdAt := 10 }

/-- Environment for claim C1: file present, all three subsystems requested by
their predicates, audio failing, video and cleanup succeeding. -/
def c1Env : ProcessEnv :=
  { fileExists := true, audioShould := true, audioSuccess := false,
    videoShould := true, videoSuccess := true,
    cleanupShould := true, cleanupSuccess := true }

/-- C1 counterexample: a full job whose audio subsystem reports failure while
video and cleanup succeed ends in status `completed`, not `failed`, even
though the per-subsystem flags record the audio failure.  This refutes the
claim that the terminal status is `failed` whenever a requested subsystem
failed. -/
theorem c1_counterexample :
    (processJob c1Job c1Env false 0 11 12).1.result =
      some { audio := some ⟨false⟩, video := some ⟨true⟩,
             cleanup := some ⟨true⟩ } ∧
    (processJob c1Job c1Env false 0 11 12).1.status = JobStatus.completed ∧
    (processJob c1Job c1Env false 0 11 12).1.status ≠ JobStatus.failed := by
  decide

/-- C1 (amended): for a full job on an existing file, the per-subsystem
success flags in the result record each requested subsystem outcome
independently, but the terminal status is `completed` whenever processing
returns without raising, even when a subsystem reported failure; `failed` is
reached only through an exception (for example a missing file). -/
theorem c1_full_job_partial_failure (job : ConversionJob) (env : ProcessEnv)
    (tc t1 t2 : Nat) (hp : job.status = JobStatus.pending)
    (hk : job.jobType = JobType.full) (hf : env.fileExists = true) :
    (processJob job env false tc t1 t2).1.status = JobStatus.completed ∧
    (processJob job env false tc t1 t2).1.result = some
      { audio := if env.audioShould = true then some ⟨env.audioSuccess⟩ else none
        video := if env.videoShould = true then some ⟨env.videoSuccess⟩ else none
        cleanup := if env.cleanupShould = true then some ⟨env.cleanupSuccess⟩ else none } := by
  simp [processJob, processFile, hp, hk, hf]

/-- C1 witness: the amended theorem evaluated on the concrete partial-failure
job. -/
theorem c1_witness :
    (processJob c1Job c1Env false 0 11 12).1.status = JobStatus.completed ∧
    (processJob c1Job c1Env false 0 11 12).1.result =
      some { audio := some ⟨false⟩, video := some ⟨true⟩,
             cleanup := some ⟨true⟩ } := by
  have h := c1_full_job_partial_failure c1Job c1Env 0 11 12 rfl rfl rfl
  exact ⟨h.1, h.2.trans (by decide)⟩

/-- C2 counterexample: with `prefer_ac3 = false`, six channels and a known
source bitrate of 1 kbps, the pipeline picks E-AC3 at 1 kbps: no bitrate
floor is applied on the E-AC3 path (its floor guard requires more than six
channels, which the E-AC3 branch never has), refuting the claim that a floor
is enforced regardless of source bitrate in the 3-6 channel branch. -/
theorem c2_counterexample :
    determineTargetFormat { prefer_ac3 := false } 6 1 = (codecEac3, 1, none) ∧
      (1 : Nat) < 256 ∧ (1 : Nat) < 128 := by
  decide

/-- C2 (amended): the channel-count rule of the audio pipeline.  More than 8
channels give AAC with an explicit 7.1 downmix layout; 7-8 channels give AAC
at the surround ceiling; 3-6 channels give AC3 with a 448 kbps floor when
`prefer_ac3` is set and otherwise E-AC3 with NO floor; stereo and mono give
AAC with a 128 kbps floor.  In every branch the pre-floor bitrate is the
minimum of the known source bitrate and the ceiling of the chosen codec, and
every AAC branch also enforces the 128 kbps floor. -/
theorem c2_audio_target_rule (cfg : AudioConfig) (c b : Nat) :
    (c > 8 →
      determineTargetFormat cfg c b =
        (codecAac,
          max (min (if b > 0 then b else cfg.aac_surround_bitrate)
            cfg.aac_surround_bitrate) 128,
          some layout71)) ∧
    (6 < c → c ≤ 8 →
      determineTargetFormat cfg c b =
        (codecAac,
          max (min (if b > 0 then b else cfg.aac_surround_bitrate)
            cfg.aac_surround_bitrate) 128,
          none)) ∧
    (2 < c → c ≤ 6 → cfg.prefer_ac3 = true →
      determineTargetFormat cfg c b =
        (codecAc3,
          max (min (if b > 0 then b else cfg.ac3_bitrate) cfg.ac3_bitrate) 448,
          none)) ∧
    (2 < c → c ≤ 6 → cfg.prefer_ac3 = false →
      determineTargetFormat cfg c b =
        (codecEac3,
          min (if b > 0 then b else cfg.eac3_bitrate) cfg.eac3_bitrate,
          none)) ∧
    (c ≤ 2 →
      determineTargetFormat cfg c b =
        (codecAac,
          max (min (if b > 0 then b else cfg.aac_stereo_bitrate)
            cfg.aac_stereo_bitrate) 128,
          none)) := by
  refine ⟨?_, ?_, ?_, ?_, ?_⟩ <;> intros <;> unfold determineTargetFormat <;>
    split_ifs <;>
    first
      | rfl
      | omega
      | simp_all [codecAac, codecAc3, codecEac3]

/-- C2 witness: the amended rule evaluated at ten channels with unknown source
bitrate (AAC 7.1 downmix at the surround ceiling) and at six channels with a
high known bitrate under the AC3 preference (AC3 capped at its ceiling). -/
theorem c2_witness :
    determineTargetFormat defaultAudioConfig 10 0 =
      (codecAac, 512, some layout71) ∧
    determineTargetFormat defaultAudioConfig 6 1500 = (codecAc3, 640, none) := by
  constructor
  · exact ((c2_audio_target_rule defaultAudioConfig 10 0).1
      (by omega)).trans (by decide)
  · exact ((c2_audio_target_rule defaultAudioConfig 6 1500).2.2.1
      (by omega) (by omega) rfl).trans (by decide)

/-- C3: cancellation succeeds exactly while a job is pending or running and
writes the fixed message; and once a job is cancelled (before pickup or while
processing), the worker neither triggers the rename protocol nor sets the
status to completed. -/
theorem c3_cancel_protocol (job : ConversionJob) (env : ProcessEnv) (cd : Bool)
    (t tc t1 t2 : Nat) :
    ((cancelJob job t).isSome = true ↔
      job.status = JobStatus.pending ∨ job.status = JobStatus.running) ∧
    (∀ j, cancelJob job t = some j →
      j.status = JobStatus.cancelled ∧ j.error = some cancelledMsg ∧
        j.completedAt = some t) ∧
    (job.status = JobStatus.cancelled ∨ cd = true →
      (processJob job env cd tc t1 t2).2 = false ∧
      (processJob job env cd tc t1 t2).1.status ≠ JobStatus.completed) := by
  refine ⟨?_, ?_, ?_⟩
  · unfold cancelJob
    split_ifs with h <;> simp [h]
  · intro j hj
    unfold cancelJob at hj
    split_ifs at hj with h
    simp only [Option.some.injEq] at hj
    subst hj
    exact ⟨rfl, rfl, rfl⟩
  · rintro (hc | hcd)
    · have hpj : processJob job env cd tc t1 t2 = (job, false) := by
        simp [processJob, hc]
      rw [hpj]
      exact ⟨rfl, by simp [hc]⟩
    · subst hcd
      by_cases h1 : job.status = JobStatus.cancelled
      · have hpj : processJob job env true tc t1 t2 = (job, false) := by
          simp [processJob, h1]
        rw [hpj]
        exact ⟨rfl, by simp [h1]⟩
      · unfold processJob
        rw [if_neg h1]
        cases hpf : processFile job.jobType job.filePath env with
        | error e => simp
        | ok res => simp [cancelUpdate]

/-- Concrete pending job used by the C3 witness. -/
def c3Job : ConversionJob :=
  { id := "job-2", jobType := JobType.full, filePath := "/media/g.mkv",
    status := JobStatus.pending, createdAt := 4 }

/-- Environment used by the C3 witness: file present, every subsystem
succeeding, so only the cancellation stops the completion path. -/
def c3Env : ProcessEnv :=
  { fileExists := true, audioShould := true, audioSuccess := true,
    videoShould := true, videoSuccess := true,
    cleanupShould := true, cleanupSuccess := true }

/-- C3 witness: a job cancelled while processing neither triggers the rename
protocol nor ends up completed. -/
theorem c3_witness :
    (processJob c3Job c3Env true 5 11 12).2 = false ∧
    (processJob c3Job c3Env true 5 11 12).1.status ≠ JobStatus.completed := by
  exact (c3_cancel_protocol c3Job c3Env true 0 5 11 12).2.2 (Or.inr rfl)

/-- Original audio-only job used for the C4 counterexample. -/
def c4Job : ConversionJob :=
  { id := "job-a", jobType := JobType.audio, filePath := "/media/a.mkv",
    status := JobStatus.pending, createdAt := 3 }

/-- C4 counterexample: an audio-only job saved to the store and reloaded by
the startup resume comes back with job kind `full`, not its original kind:
the store does not persist the kind and the reload hard-codes `full`. -/
theorem c4_counterexample :
    (loadPendingJobs (saveJob [] (jobToStoreData c4Job) 3) 100).map
        (fun j => j.jobType) = [JobType.full] ∧
    c4Job.jobType = JobType.audio ∧ JobType.full ≠ JobType.audio := by
  decide

/-- C4 (amended): every job re-enqueued by the startup resume has status reset
to pending, progress reset to 0 and no replayed execution state, carries the
original id and file path of a resumable (pending or running) store row, but
its job kind is always reset to `full` regardless of the original kind. -/
theorem c4_resume_resets (store : List StoreRow) (now : Nat)
    (j : ConversionJob) (hj : j ∈ loadPendingJobs store now) :
    j.status = JobStatus.pending ∧ j.progress = 0 ∧ j.jobType = JobType.full ∧
    j.startedAt = none ∧ j.completedAt = none ∧ j.result = none ∧
    j.error = none ∧
    ∃ r, r ∈ store ∧ (r.status = "pending" ∨ r.status = "running") ∧
      j.id = r.id ∧ j.filePath = r.file_path := by
  unfold loadPendingJobs at hj
  rcases List.mem_map.mp hj with ⟨r, hr, rfl⟩
  unfold getPendingJobs at hr
  rcases List.mem_filter.mp hr with ⟨hrs, hcond⟩
  refine ⟨rfl, rfl, rfl, rfl, rfl, rfl, rfl, r, hrs, ?_, rfl, rfl⟩
  rcases Bool.or_eq_true _ _ |>.mp hcond with h | h
  · exact Or.inl (eq_of_beq h)
  · exact Or.inr (eq_of_beq h)

/-- Interrupted running row used by the C4 witness. -/
def c4Row : StoreRow :=
  { id := "job-a", file_path := "/media/a.mkv", status := "running",
    progress := 0, error := none, created_at := 3, updated_at := 4,
    started_at := some 4, completed_at := none,
    video_converted := false, audio_converted := false,
    streams_cleaned := false }

/-- C4 witness: the amended resume property evaluated on a one-row store with
an interrupted running job. -/
theorem c4_witness :
    (requeueJob c4Row 100).status = JobStatus.pending ∧
    (requeueJob c4Row 100).progress = 0 ∧
    (requeueJob c4Row 100).jobType = JobType.full := by
  have h := c4_resume_resets [c4Row] 100 (requeueJob c4Row 100) (by decide)
  exact ⟨h.1, h.2.1, h.2.2.1⟩

/-- C5: along every queue operation the status is monotone on the pending,
running, terminal progression; a terminal status never returns to pending or
running; and the resume reload is exactly the map sending pending and running
to pending and fixing everything else. -/
theorem c5_status_monotonic (s : JobStatus) (op : QueueOp) :
    (isTerminal s = true → isTerminal (statusStep s op) = true) ∧
    (op ≠ QueueOp.resumeReload → statusRank s ≤ statusRank (statusStep s op)) ∧
    (statusStep s QueueOp.resumeReload =
      if s = JobStatus.pending ∨ s = JobStatus.running then JobStatus.pending
      else s) ∧
    (isTerminal s = true →
      statusStep s op ≠ JobStatus.pending ∧
        statusStep s op ≠ JobStatus.running) := by
  cases s <;> cases op <;>
    exact ⟨by decide, by decide, by decide, by decide⟩

/-- C5 witness: a completed job stays away from pending and running under a
cancel attempt, and the worker pickup only moves the rank forward. -/
theorem c5_witness :
    statusStep JobStatus.completed QueueOp.cancel ≠ JobStatus.pending ∧
    statusStep JobStatus.completed QueueOp.cancel ≠ JobStatus.running ∧
    statusRank JobStatus.pending ≤
      statusRank (statusStep JobStatus.pending QueueOp.workerStart) := by
  have h := c5_status_monotonic JobStatus.completed QueueOp.cancel
  have h2 := c5_status_monotonic JobStatus.pending QueueOp.workerStart
  exact ⟨(h.2.2.2 (by decide)).1, (h.2.2.2 (by decide)).2, h2.2.1 (by decide)⟩

/-- C6: the keep-set equals the configured languages together with the
original language and its alternate spelling plus the undefined codes when
`keep_undefined` is set; a subtitle is kept exactly when it is forced, or SDH
retention applies, or its language is in the keep-set; and in the concrete
scenario (keep `eng`, original `jpn`) the keep-set is exactly `eng, jpn`, a
forced English subtitle is kept and a plain French subtitle is dropped. -/
theorem c6_cleanup_keep_rule (cfg : CleanupConfig) (orig lang : String)
    (s : SubtitleStream) :
    (lang ∈ getLanguagesToKeep cfg orig ↔
      lang ∈ cfg.keep_languages ∨
        ((orig ≠ "" ∧ orig ≠ "und") ∧ (lang = orig ∨ altCode orig = some lang)) ∨
        (cfg.keep_undefined = true ∧ (lang = "und" ∨ lang = ""))) ∧
    (shouldKeepSubtitle cfg (getLanguagesToKeep cfg orig) s =
      (s.is_forced || (cfg.keep_sdh && isSdh s) ||
        (getLanguagesToKeep cfg orig).contains (lowerLang s.language))) ∧
    (getLanguagesToKeep { } "jpn" = ["eng", "jpn"]) ∧
    (shouldKeepSubtitle { } (getLanguagesToKeep { } "jpn")
        { language := some "eng", title := none, is_forced := true,
          is_hearing_impaired := false } = true) ∧
    (shouldKeepSubtitle { } (getLanguagesToKeep { } "jpn")
        { language := some "fre", title := none, is_forced := false,
          is_hearing_impaired := false } = false) := by
  refine ⟨mem_keep_set cfg orig lang, ?_, by decide, by decide, by decide⟩
  unfold shouldKeepSubtitle
  split_ifs with hf hs
  · simp [hf]
  · simp only [Bool.not_eq_true] at hf
    simp [hf, hs]
  · simp only [Bool.not_eq_true] at hf hs
    simp [hf, hs]

/-- C7: video conversion is declined when disabled, when the primary stream
is already HEVC, or in anime-only mode for non-anime content; with the gates
open it is accepted for 10-bit H.264 when the 10-bit path is configured and
for 8-bit H.264 only when the 8-bit path is explicitly enabled. -/
theorem c7_should_convert_rule (cfg : VideoConfig) (info : Option MediaInfo)
    (detected : ContentType) :
    (cfg.enabled = false → shouldConvertVideo cfg info detected = false) ∧
    (∀ i v, info = some i → i.video_streams.head? = some v →
      (isHevc v = true → shouldConvertVideo cfg info detected = false) ∧
      (cfg.anime_only = true → detected ≠ ContentType.anime →
        shouldConvertVideo cfg info detected = false) ∧
      (cfg.enabled = true →
        (cfg.anime_only = true → detected = ContentType.anime) →
        (is10bitH264 v = true → cfg.convert_10bit_x264 = true →
          isHevc v = false →
          shouldConvertVideo cfg info detected = true) ∧
        (isH264 v = true → is10bit v = false → cfg.convert_8bit_x264 = true →
          isHevc v = false →
          shouldConvertVideo cfg info detected = true)) ∧
      (isH264 v = true → is10bit v = false → cfg.convert_8bit_x264 = false →
        shouldConvertVideo cfg info detected = false)) := by
  constructor
  · intro hdis
    unfold shouldConvertVideo
    simp [hdis]
  · intro i v hi hv
    subst hi
    refine ⟨?_, ?_, ?_, ?_⟩ <;> intros <;> unfold shouldConvertVideo <;>
      simp only [hv] <;> split_ifs <;>
      first
        | rfl
        | simp_all [is10bitH264]

/-- Ten-bit H.264 primary stream used by the C7 witness (scenario B). -/
def c7Stream : VideoStream :=
  { codec_name := "h264", pix_fmt := "yuv420p10le", bit_depth := 10 }

/-- C7 witness (scenario B): a 10-bit H.264 file in anime-only mode with a
non-anime classification is not converted. -/
theorem c7_witness :
    shouldConvertVideo { } (some { video_streams := [c7Stream] })
      ContentType.liveAction = false := by
  have h := c7_should_convert_rule { } (some { video_streams := [c7Stream] })
    ContentType.liveAction
  exact (h.2 { video_streams := [c7Stream] } c7Stream rfl rfl).2.1 rfl
    (by decide)

/-- C8: the retention purge deletes exactly the rows whose status is in the
given list and whose completion timestamp is older than the cutoff; under the
system invariant that pending and running rows have no completion timestamp,
such rows always survive, regardless of their age. -/
theorem c8_purge_rule (store : List StoreRow) (statuses : List String)
    (cutoff : Nat)
    (hpr : ∀ r ∈ store, (r.status = "pending" ∨ r.status = "running") →
      r.completed_at = none) :
    (∀ r, r ∈ cleanupOldJobs store statuses cutoff ↔
      r ∈ store ∧ ¬(statuses.contains r.status = true ∧
        ∃ t, r.completed_at = some t ∧ t < cutoff)) ∧
    (∀ r ∈ store, (r.status = "pending" ∨ r.status = "running") →
      r ∈ cleanupOldJobs store statuses cutoff) := by
  have hchar : ∀ r : StoreRow, cleanupMatches r statuses cutoff = true ↔
      (statuses.contains r.status = true ∧
        ∃ t, r.completed_at = some t ∧ t < cutoff) := by
    intro r
    unfold cleanupMatches
    cases hco : r.completed_at <;> simp [hco]
  constructor
  · intro r
    unfold cleanupOldJobs
    rw [List.mem_filter]
    constructor
    · rintro ⟨hr, hb⟩
      refine ⟨hr, fun hcontr => ?_⟩
      rw [Bool.not_eq_true'] at hb
      have hcm := (hchar r).mpr hcontr
      rw [hcm] at hb
      exact Bool.noConfusion hb
    · rintro ⟨hr, hn⟩
      refine ⟨hr, ?_⟩
      rw [Bool.not_eq_true']
      cases hcm : cleanupMatches r statuses cutoff
      · rfl
      · exact absurd ((hchar r).mp hcm) hn
  · intro r hr hst
    unfold cleanupOldJobs
    rw [List.mem_filter]
    refine ⟨hr, ?_⟩
    have hno := hpr r hr hst
    simp [cleanupMatches, hno]

/-- Old completed row used by the C8 witness; purged at cutoff 50. -/
def c8RowOld : StoreRow :=
  { id := "done-1", file_path := "/media/x.mkv", status := "completed",
    progress := 0, error := none, created_at := 1, updated_at := 10,
    started_at := some 2, completed_at := some 10,
    video_converted := true, audio_converted := false,
    streams_cleaned := false }

/-- Recent failed row used by the C8 witness; kept at cutoff 50. -/
def c8RowNew : StoreRow :=
  { id := "done-2", file_path := "/media/y.mkv", status := "failed",
    progress := 0, error := some "boom", created_at := 60, updated_at := 70,
    started_at := some 61, completed_at := some 70,
    video_converted := false, audio_converted := false,
    streams_cleaned := false }

/-- Very old pending row used by the C8 witness; always kept. -/
def c8RowPending : StoreRow :=
  { id := "old-pending", file_path := "/media/z.mkv", status := "pending",
    progress := 0, error := none, created_at := 1, updated_at := 1,
    started_at := none, completed_at := none,
    video_converted := false, audio_converted := false,
    streams_cleaned := false }

/-- Three-row store used by the C8 witness. -/
def c8Store : List StoreRow := [c8RowOld, c8RowNew, c8RowPending]

/-- C8 witness: purging completed and failed rows older than cutoff 50 keeps
the ancient pending row and the recent failed row but removes the old
completed row. -/
theorem c8_witness :
    c8RowPending ∈ cleanupOldJobs c8Store ["completed", "failed"] 50 ∧
    c8RowNew ∈ cleanupOldJobs c8Store ["completed", "failed"] 50 ∧
    c8RowOld ∉ cleanupOldJobs c8Store ["completed", "failed"] 50 := by
  have h := c8_purge_rule c8Store ["completed", "failed"] 50 (by decide)
  refine ⟨h.2 c8RowPending (by decide) (Or.inl rfl), ?_, ?_⟩
  · exact (h.1 c8RowNew).mpr ⟨by decide, fun hc => by
      rcases hc.2 with ⟨t, ht, hlt⟩
      rw [show c8RowNew.completed_at = some 70 from rfl] at ht
      cases ht
      omega⟩
  · intro hmem
    exact ((h.1 c8RowOld).mp hmem).2 ⟨by decide, 10, rfl, by omega⟩

/-- C9: saving a job record and reloading it by id yields a row with the same
id and file path and the just-written status, progress, error and outcome
flags (the file-path hypothesis encodes the invariant that the path of a job
id never changes, which the system maintains). -/
theorem c9_round_trip (store : List StoreRow) (d : JobData) (now : Nat)
    (hpath : ∀ r ∈ store, r.id = d.id → r.file_path = d.file_path) :
    ∃ r, getJob (saveJob store d now) d.id = some r ∧
      r.id = d.id ∧ r.file_path = d.file_path ∧ r.status = d.status ∧
      r.progress = d.progress.getD 0 ∧ r.error = d.error ∧
      r.video_converted = d.video_converted.getD false ∧
      r.audio_converted = d.audio_converted.getD false ∧
      r.streams_cleaned = d.streams_cleaned.getD false := by
  by_cases hany : store.any (fun r => r.id == d.id) = true
  · rcases getJob_save_found store d now hany with ⟨r0, hr0, hid, hfind⟩
    refine ⟨updateRow r0 d now, ?_, ?_, ?_, rfl, rfl, rfl, rfl, rfl, rfl⟩
    · unfold saveJob getJob
      rw [if_pos hany]
      exact hfind
    · rw [updateRow_id]; exact hid
    · show r0.file_path = d.file_path
      exact hpath r0 hr0 hid
  · have hall : ∀ r ∈ store, (r.id == d.id) = false := by
      intro r hr
      cases hb : (r.id == d.id)
      · rfl
      · exact absurd (List.any_eq_true.mpr ⟨r, hr, hb⟩) hany
    refine ⟨insertRow d now, ?_, rfl, rfl, rfl, rfl, rfl, rfl, rfl, rfl⟩
    unfold saveJob getJob
    rw [if_neg hany]
    exact find_append_single store _ _ hall (by simp [insertRow])

/-- Existing running row updated by the C9 witness. -/
def c9Row : StoreRow :=
  { id := "job-b", file_path := "/media/b.mkv", status := "running",
    progress := 0, error := none, created_at := 1, updated_at := 2,
    started_at := some 2, completed_at := none,
    video_converted := false, audio_converted := false,
    streams_cleaned := false }

/-- Completion record written over `c9Row` by the C9 witness. -/
def c9Data : JobData :=
  { id := "job-b", file_path := "/media/b.mkv", status := "completed",
    progress := some 0, error := none, created_at := some 1,
    started_at := some 2, completed_at := some 9,
    video_converted := some true, audio_converted := some false,
    streams_cleaned := some true }

/-- C9 witness: writing a completion update over an existing running row and
reading the row back returns the freshly written status and flags with the
original path. -/
theorem c9_witness :
    (getJob (saveJob [c9Row] c9Data 9) c9Data.id).map (fun r => r.status) =
      some "completed" ∧
    (getJob (saveJob [c9Row] c9Data 9) c9Data.id).map
        (fun r => r.video_converted) = some true ∧
    (getJob (saveJob [c9Row] c9Data 9) c9Data.id).map
        (fun r => r.file_path) = some "/media/b.mkv" := by
  rcases c9_round_trip [c9Row] c9Data 9 (by decide) with
    ⟨r, hget, hid, hfp, hst, hpr, herr, hv, hau, hsc⟩
  rw [hget]
  simp only [Option.map_some']
  exact ⟨congrArg _ (hst.trans rfl), congrArg _ (hv.trans rfl),
    congrArg _ (hfp.trans rfl)⟩

/-- C10: an audio stream with an empty or missing language tag is kept exactly
when `keep_undefined` is configured (the keep-set then contains both the
`und` code and the empty tag), or commentary retention matches its title, or
audio-description retention matches its title; otherwise it is dropped.  The
configured keep-languages are assumed not to contain the empty string. -/
theorem c10_untagged_audio (cfg : CleanupConfig) (orig : String)
    (s : AudioStream) (hlang : s.language = none ∨ s.language = some "")
    (hcfg : cfg.keep_languages.contains "" = false) :
    (shouldKeepAudio cfg (getLanguagesToKeep cfg orig) s = true ↔
      cfg.keep_undefined = true ∨
        (cfg.keep_commentary = true ∧
          containsSub (lowerTitle s.title) commentaryPat = true) ∨
        (cfg.keep_audio_description = true ∧
          (containsSub (lowerTitle s.title) descriptionPat = true ∨
            containsSub (lowerTitle s.title) descriptivePat = true))) ∧
    (cfg.keep_undefined = true →
      (getLanguagesToKeep cfg orig).contains "und" = true ∧
      (getLanguagesToKeep cfg orig).contains "" = true) := by
  have hl : lowerLang s.language = "" := by
    rcases hlang with h | h <;> simp [lowerLang, h, strLower]
  have hcfg2 : ("" : String) ∉ cfg.keep_languages := by
    intro hm
    rw [(contains_iff_mem cfg.keep_languages "").mpr hm] at hcfg
    exact Bool.noConfusion hcfg
  have hmem : (("" : String) ∈ getLanguagesToKeep cfg orig) ↔
      cfg.keep_undefined = true := by
    rw [mem_keep_set]
    constructor
    · rintro (h | ⟨⟨hne, _⟩, h | h⟩ | ⟨hu, _⟩)
      · exact absurd h hcfg2
      · exact absurd h.symm hne
      · exact absurd h (altCode_ne_some_empty orig)
      · exact hu
    · intro hu
      exact Or.inr (Or.inr ⟨hu, Or.inr rfl⟩)
  constructor
  · unfold shouldKeepAudio
    rw [hl]
    split_ifs with h1 h2 h3
    · exact iff_of_true rfl
        (Or.inl (hmem.mp ((contains_iff_mem _ _).mp h1)))
    · rcases Bool.and_eq_true _ _ |>.mp h2 with ⟨hkc, hcc⟩
      exact iff_of_true rfl (Or.inr (Or.inl ⟨hkc, hcc⟩))
    · rcases Bool.and_eq_true _ _ |>.mp h3 with ⟨hkd, hd⟩
      exact iff_of_true rfl
        (Or.inr (Or.inr ⟨hkd, Bool.or_eq_true _ _ |>.mp hd⟩))
    · refine iff_of_false (by simp) ?_
      rintro (hu | ⟨hkc, hcc⟩ | ⟨hkd, hd⟩)
      · exact h1 ((contains_iff_mem _ _).mpr (hmem.mpr hu))
      · exact h2 (Bool.and_eq_true _ _ |>.mpr ⟨hkc, hcc⟩)
      · exact h3 (Bool.and_eq_true _ _ |>.mpr
          ⟨hkd, Bool.or_eq_true _ _ |>.mpr hd⟩)
  · intro hu
    constructor <;> rw [contains_iff_mem, mem_keep_set]
    · exact Or.inr (Or.inr ⟨hu, Or.inl rfl⟩)
    · exact Or.inr (Or.inr ⟨hu, Or.inr rfl⟩)

/-- C10 witness: with `keep_undefined` set, an untagged untitled audio stream
is kept. -/
theorem c10_witness :
    shouldKeepAudio { keep_undefined := true }
      (getLanguagesToKeep { keep_undefined := true } "jpn")
      { language := none, title := none } = true := by
  have h := c10_untagged_audio { keep_undefined := true } "jpn"
    { language := none, title := none } (Or.inl rfl) (by decide)
  exact h.1.mpr (Or.inl rfl)

end Remuxcode
